import Mathlib

/-!
Verification of the appointment-scheduling service (AgendarCita router plus
the Disponibilidad router) against its natural-language specification.

The embedding follows `src/AgendarCita/routes/citas.js` (both the citas
router and the appended Disponibilidad router). Remote axios calls are
modelled by the `Remote` result type: `ok a` is a 2xx response with body `a`
(an `Option` body distinguishes a falsy/empty body from a present one), and
`err st` is a thrown error, where `st = some s` means the upstream answered
with status `s` (`error.response.status`) and `st = none` means no response
was received. Each Express handler is a pure function from its inputs and
the outcomes of its remote calls to the list of observable events it
produces, in program order: every HTTP request it issues and every
`res.status(n).send(msg)` it executes. The response the caller observes is
the first send event (Express commits headers at the first send; later
sends do not reach the caller).
-/

namespace CloudProject

/-- A row of the relational table `Disponibilidad (dia, hora, dni_doctor)`. -/
structure DispRow where
  dia : String
  hora : String
  dni_doctor : String
deriving DecidableEq

/-- The body posted to the appointment service by `/agendar`
(`citaData = ⟨dniPaciente, dniDoctor, dia, hora⟩`). -/
structure CitaData where
  dniPaciente : String
  dniDoctor : String
  dia : String
  hora : String
deriving DecidableEq

/-- An appointment record as stored by the external appointment service:
the posted data plus the id the service assigned. -/
structure CitaRec where
  id : String
  dniPaciente : String
  dniDoctor : String
  dia : String
  hora : String
deriving DecidableEq

/-- Outcome of one axios call: `ok a` is a success response with body `a`;
`err (some s)` is a failure where the upstream answered with HTTP status
`s`; `err none` is a failure with no response received. -/
inductive Remote (α : Type) where
  | ok : α → Remote α
  | err : Option Nat → Remote α
deriving DecidableEq

/-- `error.response?.status || 500`: the received status when there is one
(JavaScript `||` treats a 0 status as falsy), else 500. -/
def jsStatus : Option Nat → Nat
  | none => 500
  | some s => if s = 0 then 500 else s

/-- Observable events of a handler run, in program order: HTTP requests it
issues to the collaborating services, and `res.status(n).send(msg)` calls. -/
inductive Event where
  | send : Nat → String → Event
  | createCita : CitaData → Event
  | deleteSlot : String → String → String → Event
  | insertSlot : String → String → String → Event
  | deleteCita : String → Event
deriving DecidableEq

/-- The response the caller observes: the first send event of the trace
(Express sends headers at the first `send`; later `send`s fail with
"headers already sent" and never reach the caller). -/
def firstSend : List Event → Option (Nat × String)
  | [] => none
  | .send st msg :: _ => some (st, msg)
  | _ :: rest => firstSend rest

/-- Whether an event is a mutation request against a collaborating store
(anything but a `send`). -/
def isMutation : Event → Bool
  | .send _ _ => false
  | _ => true

/-- Whether an event is an appointment-creation request. -/
def isCreateCita : Event → Bool
  | .createCita _ => true
  | _ => false

/-- Whether an event is an availability-slot insertion request. -/
def isInsertSlot : Event → Bool
  | .insertSlot _ _ _ => true
  | _ => false

/-- Whether an event is an appointment-deletion request. -/
def isDeleteCita : Event → Bool
  | .deleteCita _ => true
  | _ => false

/-- The outcomes of the remote calls a `/agendar` run may perform, in the
order the handler makes them. -/
structure BookCalls where
  paciente : Remote (Option String)
  doctor : Remote (Option String)
  dispo : Remote (List DispRow)
  crearCita : Remote String
  borrarSlot : Remote Unit

/-- The `/agendar` handler (`router.post('/agendar')` in
`src/AgendarCita/routes/citas.js`, lines 101-170), as the trace of events
it produces given the outcomes of its remote calls:
1. patient lookup (inner try: a thrown error maps to
   `error.response?.status || 500` with a 404-specific message; a success
   with falsy body returns 404);
2. doctor lookup, same shape;
3. availability fetch (no inner try: a throw reaches the outer catch, 500);
   no slot with the requested `dia`/`hora` returns 400;
4. appointment creation (a throw reaches the outer catch, 500);
5. `res.status(201).send`, then the slot deletion request; if it throws,
   the outer catch executes `res.status(500).send` after the 201 was sent. -/
def agendar (dniPaciente dniDoctor dia hora : String) (c : BookCalls) : List Event :=
  match c.paciente with
  | .err st =>
      [.send (jsStatus st)
        (if jsStatus st = 404 then "Paciente no encontrado" else "Error al verificar el Paciente")]
  | .ok none => [.send 404 "Paciente no encontrado"]
  | .ok (some _) =>
    match c.doctor with
    | .err st =>
        [.send (jsStatus st)
          (if jsStatus st = 404 then "Doctor no encontrado" else "Error al verificar el doctor")]
    | .ok none => [.send 404 "Doctor no encontrado"]
    | .ok (some _) =>
      match c.dispo with
      | .err _ => [.send 500 "Error al agendar la cita"]
      | .ok disponibilidad =>
        if disponibilidad.any (fun d => d.dia == dia && d.hora == hora) then
          match c.crearCita with
          | .err _ => [.send 500 "Error al agendar la cita"]
          | .ok _ =>
            [.createCita ⟨dniPaciente, dniDoctor, dia, hora⟩,
             .send 201 "Cita agendada con éxito",
             .deleteSlot dniDoctor dia hora] ++
            (match c.borrarSlot with
             | .ok _ => []
             | .err _ => [.send 500 "Error al agendar la cita"])
        else
          [.send 400 "El doctor no está disponible en la fecha y hora solicitadas."]

/-- The outcomes of the remote calls a `/cancelar/:idCita` run may perform. -/
structure CancelCalls where
  getCita : Remote (Option CitaRec)
  delCita : Remote Unit
  restaurar : Remote Unit

/-- The `/cancelar/:idCita` handler (`router.delete('/cancelar/:idCita')`
in `src/AgendarCita/routes/citas.js`, lines 301-335):
1. fetch the appointment (a throw reaches the outer catch, 500; a success
   with falsy body returns 404 without issuing any further request);
2. delete the appointment record (a throw reaches the outer catch, 500);
3. re-insert the availability slot taken from the fetched appointment; the
   inner catch sends a 500 restoration-failure message and, since it does
   not return, execution falls through to the final `res.status(200).send`,
   which no longer reaches the caller. -/
def cancelar (idCita : String) (c : CancelCalls) : List Event :=
  match c.getCita with
  | .err _ => [.send 500 "Error al cancelar la cita"]
  | .ok none => [.send 404 "Cita no encontrada"]
  | .ok (some cita) =>
    match c.delCita with
    | .err _ => [.deleteCita idCita, .send 500 "Error al cancelar la cita"]
    | .ok _ =>
      .deleteCita idCita ::
      .insertSlot cita.dniDoctor cita.dia cita.hora ::
      (match c.restaurar with
       | .ok _ => [.send 200 "Cita cancelada y disponibilidad restaurada con éxito"]
       | .err _ =>
         [.send 500 ("Error restarurando la disponibilidad para el doctor " ++
            cita.dniDoctor ++ " en " ++ cita.dia ++ " a las " ++ cita.hora),
          .send 200 "Cita cancelada y disponibilidad restaurada con éxito"])

/-- Doctor details used by the listing handler. -/
structure DoctorData where
  nombres : String
  apellidos : String
  especialidad : String
deriving DecidableEq

/-- One element of the list returned by `/:dniPaciente`: either the
enriched object `⟨fecha := cita.dia, hora := cita.hora, doctor⟩` built when
the doctor lookup succeeded, or the fallback `⟨...cita, doctor := marker⟩`
built by the per-item catch. -/
inductive ListEntry where
  | enriched : String → String → DoctorData → ListEntry
  | fallback : CitaRec → String → ListEntry
deriving DecidableEq

/-- Response of the listing handler: `res.json` (status 200) with the
entry list, or `res.status(n).send(msg)`. -/
inductive ListResp where
  | json : Nat → List ListEntry → ListResp
  | sendText : Nat → String → ListResp
deriving DecidableEq

/-- The per-appointment enrichment step of `/:dniPaciente`: on a doctor
lookup success with a present body, build `{fecha, hora, doctor}` from the
appointment and the doctor fields; on a thrown lookup error, or on a falsy
body (reading `.nombres` of it throws inside the same try), the catch
substitutes the error-marker string as the `doctor` field. -/
def enrich (getDoctor : String → Remote (Option DoctorData)) (cita : CitaRec) : ListEntry :=
  match getDoctor cita.dniDoctor with
  | .ok (some d) => .enriched cita.dia cita.hora ⟨d.nombres, d.apellidos, d.especialidad⟩
  | .ok none => .fallback cita "Error al obtener los datos del doctor"
  | .err _ => .fallback cita "Error al obtener los datos del doctor"

/-- The `/:dniPaciente` listing handler (`router.get('/:dniPaciente')` in
`src/AgendarCita/routes/citas.js`, lines 235-276): fetch the patient's
appointments (a throw reaches the catch, 500); an empty list returns 404;
otherwise map `enrich` over the list (`Promise.all(citas.map ...)`
preserves the original order) and return it as JSON. -/
def listar (dniPaciente : String) (rc : Remote (List CitaRec))
    (getDoctor : String → Remote (Option DoctorData)) : ListResp :=
  match rc with
  | .err _ => .sendText 500 "Error al obtener las citas del paciente"
  | .ok citas =>
    if citas.length = 0 then
      .sendText 404 ("No se encontraron citas para el paciente con DNI " ++ dniPaciente)
    else
      .json 200 (citas.map (enrich getDoctor))

/-- Predicate of the SQL row match used by the Disponibilidad router:
`dni_doctor = $1 AND dia = $2 AND hora = $3`. -/
def matchB (dni dia hora : String) (r : DispRow) : Bool :=
  r.dni_doctor == dni && r.dia == dia && r.hora == hora

/-- `SELECT * FROM Disponibilidad WHERE dni_doctor = $1`. -/
def dispSelect (db : List DispRow) (dni : String) : List DispRow :=
  db.filter (fun r => r.dni_doctor == dni)

/-- One JSON object as its ordered field list (name, value). -/
def rowFields (r : DispRow) : List (String × String) :=
  [("dia", r.dia), ("hora", r.hora), ("dni_doctor", r.dni_doctor)]

/-- Response of `GET /disponibilidad/:dni`. -/
inductive DispGetResp where
  | json : Nat → List (List (String × String)) → DispGetResp
  | sendText : Nat → String → DispGetResp
deriving DecidableEq

/-- The `GET /disponibilidad/:dni` handler (`router.get('/:dni')` of the
Disponibilidad router in `src/AgendarCita/routes/citas.js`): on query
success, `res.json(result.rows)` — status 200 with every column of each
selected row (`SELECT *`); on a thrown query error, 500. -/
def dispGet (db : List DispRow) (dni : String) (queryOk : Bool) : DispGetResp :=
  if queryOk then
    .json 200 ((dispSelect db dni).map rowFields)
  else
    .sendText 500 "Error al obtener la disponibilidad del doctor"

/-- State of the two collaborating stores: the `Disponibilidad` table and
the appointment service's records. -/
structure SysState where
  slots : List DispRow
  citas : List CitaRec
deriving DecidableEq

/-- How a successful store request changes the stores: appointment
creation appends a record under the id the appointment service assigns;
slot deletion is `DELETE FROM Disponibilidad WHERE dni_doctor = $1 AND
dia = $2 AND hora = $3`; slot insertion is the corresponding `INSERT`;
appointment deletion removes the records with that id; `send` touches no
store. -/
def applyEvent (newId : String) (s : SysState) : Event → SysState
  | .createCita cd =>
      { s with citas := s.citas ++ [⟨newId, cd.dniPaciente, cd.dniDoctor, cd.dia, cd.hora⟩] }
  | .deleteSlot dni dia hora =>
      { s with slots := s.slots.filter (fun r => !(matchB dni dia hora r)) }
  | .insertSlot dni dia hora => { s with slots := s.slots ++ [⟨dia, hora, dni⟩] }
  | .deleteCita id => { s with citas := s.citas.filter (fun c => !(c.id == id)) }
  | .send _ _ => s

/-- The call outcomes of a `/agendar` run in which the store-backed calls
are answered by the stores of state `s` and all of them succeed: the
availability fetch returns the doctor's rows, and creation and deletion
succeed. Patient and doctor lookups go to directory services outside the
stores and stay parameters. -/
def bookCalls (s : SysState) (dniDoctor : String)
    (pac doc : Remote (Option String)) : BookCalls :=
  { paciente := pac
    doctor := doc
    dispo := .ok (dispSelect s.slots dniDoctor)
    crearCita := .ok ""
    borrarSlot := .ok () }

/-- End-to-end booking against state `s`: the trace of the `/agendar`
handler wired to the stores, and the final store state after every issued
request took effect (`newId` is the id the appointment service assigns). -/
def bookRun (s : SysState) (newId dniPaciente dniDoctor dia hora : String)
    (pac doc : Remote (Option String)) : List Event × SysState :=
  let tr := agendar dniPaciente dniDoctor dia hora (bookCalls s dniDoctor pac doc)
  (tr, tr.foldl (applyEvent newId) s)

theorem length_filter_not_add_countP (l : List α) (p : α → Bool) :
    (l.filter fun a => !(p a)).length + l.countP p = l.length := by
  induction l with
  | nil => simp
  | cons a t ih =>
    cases h : p a <;> simp [List.filter_cons, List.countP_cons, h] <;> omega

theorem jsStatus_eq_404_iff (st : Option Nat) : jsStatus st = 404 ↔ st = some 404 := by
  cases st with
  | none => simp [jsStatus]
  | some s =>
    simp only [jsStatus, Option.some.injEq]
    by_cases h : s = 0
    · simp [h]
    · simp [h]

/-- C3: whenever the patient lookup of `/agendar` yields not-found (a falsy
success body, or an upstream 404), the handler responds 404
"Paciente no encontrado" and issues no appointment-creation request and no
mutation of the availability store. -/
theorem agendar_patient_not_found (dniP dniD dia hora : String) (c : BookCalls)
    (h : c.paciente = .ok none ∨ c.paciente = .err (some 404)) :
    agendar dniP dniD dia hora c = [.send 404 "Paciente no encontrado"] ∧
    ∀ e ∈ agendar dniP dniD dia hora c, isMutation e = false := by
  have htr : agendar dniP dniD dia hora c = [.send 404 "Paciente no encontrado"] := by
    rcases h with h | h <;> simp [agendar, h, jsStatus]
  exact ⟨htr, by simp [htr, isMutation]⟩

/-- C3 witness: a concrete run whose patient lookup returns an empty body. -/
theorem agendar_patient_not_found_witness :
    agendar "123" "456" "Lunes" "09:00:00" ⟨.ok none, .ok none, .ok [], .ok "", .ok ()⟩ =
      [.send 404 "Paciente no encontrado"] :=
  (agendar_patient_not_found "123" "456" "Lunes" "09:00:00" _ (Or.inl rfl)).1

/-- C10: `/agendar` treats the patient (or doctor) as not found — responding
404 — both when the directory call fails with an upstream 404 and when it
succeeds with an empty/falsy body; in all four cases the trace is the
single 404 send, so no appointment is created. -/
theorem agendar_falsy_or_404_treated_not_found (dniP dniD dia hora : String) (c : BookCalls) :
    (c.paciente = .ok none →
      agendar dniP dniD dia hora c = [.send 404 "Paciente no encontrado"] ∧
      (agendar dniP dniD dia hora c).countP isCreateCita = 0) ∧
    (c.paciente = .err (some 404) →
      agendar dniP dniD dia hora c = [.send 404 "Paciente no encontrado"] ∧
      (agendar dniP dniD dia hora c).countP isCreateCita = 0) ∧
    (∀ p, c.paciente = .ok (some p) → c.doctor = .ok none →
      agendar dniP dniD dia hora c = [.send 404 "Doctor no encontrado"] ∧
      (agendar dniP dniD dia hora c).countP isCreateCita = 0) ∧
    (∀ p, c.paciente = .ok (some p) → c.doctor = .err (some 404) →
      agendar dniP dniD dia hora c = [.send 404 "Doctor no encontrado"] ∧
      (agendar dniP dniD dia hora c).countP isCreateCita = 0) := by
  refine ⟨fun h => ?_, fun h => ?_, fun p hp h => ?_, fun p hp h => ?_⟩ <;>
    [ (have htr : agendar dniP dniD dia hora c = [.send 404 "Paciente no encontrado"] := by
        simp [agendar, h])
    ; (have htr : agendar dniP dniD dia hora c = [.send 404 "Paciente no encontrado"] := by
        simp [agendar, h, jsStatus])
    ; (have htr : agendar dniP dniD dia hora c = [.send 404 "Doctor no encontrado"] := by
        simp [agendar, hp, h])
    ; (have htr : agendar dniP dniD dia hora c = [.send 404 "Doctor no encontrado"] := by
        simp [agendar, hp, h, jsStatus]) ] <;>
    exact ⟨htr, by simp [htr, isCreateCita]⟩

/-- C10 witness: concrete runs for the falsy-body patient case and the
upstream-404 doctor case. -/
theorem agendar_falsy_or_404_treated_not_found_witness :
    agendar "123" "456" "Lunes" "09:00:00" ⟨.ok none, .ok (some "d"), .ok [], .ok "", .ok ()⟩ =
      [.send 404 "Paciente no encontrado"] ∧
    agendar "123" "456" "Lunes" "09:00:00"
        ⟨.ok (some "p"), .err (some 404), .ok [], .ok "", .ok ()⟩ =
      [.send 404 "Doctor no encontrado"] := by
  constructor
  · exact ((agendar_falsy_or_404_treated_not_found "123" "456" "Lunes" "09:00:00"
      ⟨.ok none, .ok (some "d"), .ok [], .ok "", .ok ()⟩).1 rfl).1
  · exact ((agendar_falsy_or_404_treated_not_found "123" "456" "Lunes" "09:00:00"
      ⟨.ok (some "p"), .err (some 404), .ok [], .ok "", .ok ()⟩).2.2.2 "p" rfl rfl).1

/-- C4: when the patient and doctor lookups succeed with present bodies
but the fetched availability list contains no row with the requested
`dia` and `hora`, `/agendar` responds 400 with the slot-unavailable
message and issues no creation and no slot mutation. -/
theorem agendar_slot_unavailable (dniP dniD dia hora p d : String) (l : List DispRow)
    (c : BookCalls) (hp : c.paciente = .ok (some p)) (hd : c.doctor = .ok (some d))
    (hl : c.dispo = .ok l)
    (hm : l.any (fun r => r.dia == dia && r.hora == hora) = false) :
    agendar dniP dniD dia hora c =
      [.send 400 "El doctor no está disponible en la fecha y hora solicitadas."] ∧
    ∀ e ∈ agendar dniP dniD dia hora c, isMutation e = false := by
  have htr : agendar dniP dniD dia hora c =
      [.send 400 "El doctor no está disponible en la fecha y hora solicitadas."] := by
    simp [agendar, hp, hd, hl, hm]
  exact ⟨htr, by simp [htr, isMutation]⟩

/-- C4 witness: a concrete run where the doctor's only slot is on another
day. -/
theorem agendar_slot_unavailable_witness :
    agendar "123" "456" "Lunes" "09:00:00"
        ⟨.ok (some "p"), .ok (some "d"), .ok [⟨"Martes", "09:00:00", "456"⟩], .ok "", .ok ()⟩ =
      [.send 400 "El doctor no está disponible en la fecha y hora solicitadas."] :=
  (agendar_slot_unavailable "123" "456" "Lunes" "09:00:00" "p" "d"
    [⟨"Martes", "09:00:00", "456"⟩] _ rfl rfl rfl (by decide)).1

/-- C2: on the booking success path (patient and doctor found, a matching
slot present, appointment created), the caller-observed response is the
201 success regardless of the outcome of the later slot deletion, and the
trace contains the slot-deletion request strictly after the 201 send: the
trace splits as `pre ++ deleteSlot :: post` with the 201 send in `pre`. -/
theorem agendar_response_precedes_slot_delete (dniP dniD dia hora p d cr : String)
    (l : List DispRow) (c : BookCalls)
    (hp : c.paciente = .ok (some p)) (hd : c.doctor = .ok (some d)) (hl : c.dispo = .ok l)
    (hm : l.any (fun r => r.dia == dia && r.hora == hora) = true)
    (hc : c.crearCita = .ok cr) :
    firstSend (agendar dniP dniD dia hora c) = some (201, "Cita agendada con éxito") ∧
    ∃ pre post, agendar dniP dniD dia hora c = pre ++ .deleteSlot dniD dia hora :: post ∧
      Event.send 201 "Cita agendada con éxito" ∈ pre := by
  have htr : agendar dniP dniD dia hora c =
      [.createCita ⟨dniP, dniD, dia, hora⟩,
       .send 201 "Cita agendada con éxito",
       .deleteSlot dniD dia hora] ++
      (match c.borrarSlot with
       | .ok _ => []
       | .err _ => [.send 500 "Error al agendar la cita"]) := by
    simp [agendar, hp, hd, hl, hm, hc]
  refine ⟨?_, ?_⟩
  · rw [htr]; cases c.borrarSlot <;> simp [firstSend]
  · cases hb : c.borrarSlot with
    | ok u =>
      exact ⟨[.createCita ⟨dniP, dniD, dia, hora⟩, .send 201 "Cita agendada con éxito"], [],
        by rw [htr, hb]; rfl, by simp⟩
    | err st =>
      exact ⟨[.createCita ⟨dniP, dniD, dia, hora⟩, .send 201 "Cita agendada con éxito"],
        [.send 500 "Error al agendar la cita"], by rw [htr, hb]; rfl, by simp⟩

/-- C2 witness: a concrete success-path run in which the slot deletion
fails with no response received; the caller still observes the 201. -/
theorem agendar_response_precedes_slot_delete_witness :
    firstSend (agendar "123" "456" "Lunes" "09:00:00"
        ⟨.ok (some "p"), .ok (some "d"), .ok [⟨"Lunes", "09:00:00", "456"⟩], .ok "cita", .err none⟩) =
      some (201, "Cita agendada con éxito") :=
  (agendar_response_precedes_slot_delete "123" "456" "Lunes" "09:00:00" "p" "d" "cita"
    [⟨"Lunes", "09:00:00", "456"⟩] _ rfl rfl rfl (by decide) rfl).1

/-- C5: when the appointment fetch of `/cancelar/:idCita` yields the
not-found outcome (a success response with a falsy body, the handler's own
`if (!cita)` branch), the handler responds 404 "Cita no encontrada" and
issues no appointment deletion and no slot insertion (no mutation at all). -/
theorem cancelar_unknown_id (idCita : String) (c : CancelCalls)
    (h : c.getCita = .ok none) :
    cancelar idCita c = [.send 404 "Cita no encontrada"] ∧
    ∀ e ∈ cancelar idCita c, isMutation e = false := by
  have htr : cancelar idCita c = [.send 404 "Cita no encontrada"] := by simp [cancelar, h]
  exact ⟨htr, by simp [htr, isMutation]⟩

/-- C5 witness: a concrete cancel of an unknown id. -/
theorem cancelar_unknown_id_witness :
    cancelar "999" ⟨.ok none, .ok (), .ok ()⟩ = [.send 404 "Cita no encontrada"] :=
  (cancelar_unknown_id "999" ⟨.ok none, .ok (), .ok ()⟩ rfl).1

/-- C6: when `/cancelar/:idCita` finds the appointment, deletes it, and the
slot re-insertion then fails, the caller-observed response is the 500
restoration-failure message; the trace holds exactly one appointment
deletion, exactly one insertion attempt (no retry), and no appointment
re-creation. -/
theorem cancelar_restore_failure (idCita : String) (cita : CitaRec) (st : Option Nat)
    (c : CancelCalls) (hget : c.getCita = .ok (some cita)) (hdel : c.delCita = .ok ())
    (hres : c.restaurar = .err st) :
    firstSend (cancelar idCita c) =
      some (500, "Error restarurando la disponibilidad para el doctor " ++
        cita.dniDoctor ++ " en " ++ cita.dia ++ " a las " ++ cita.hora) ∧
    (cancelar idCita c).countP isDeleteCita = 1 ∧
    (cancelar idCita c).countP isInsertSlot = 1 ∧
    (cancelar idCita c).countP isCreateCita = 0 := by
  have htr : cancelar idCita c =
      [.deleteCita idCita, .insertSlot cita.dniDoctor cita.dia cita.hora,
       .send 500 ("Error restarurando la disponibilidad para el doctor " ++
         cita.dniDoctor ++ " en " ++ cita.dia ++ " a las " ++ cita.hora),
       .send 200 "Cita cancelada y disponibilidad restaurada con éxito"] := by
    simp [cancelar, hget, hdel, hres]
  rw [htr]
  refine ⟨rfl, ?_, ?_, ?_⟩ <;>
    simp [List.countP_cons, isDeleteCita, isInsertSlot, isCreateCita]

/-- C6 witness: a concrete cancel whose restoration insert fails with an
upstream 500. -/
theorem cancelar_restore_failure_witness :
    firstSend (cancelar "7"
        ⟨.ok (some ⟨"7", "123", "456", "Lunes", "09:00:00"⟩), .ok (), .err (some 500)⟩) =
      some (500, "Error restarurando la disponibilidad para el doctor 456 en Lunes a las 09:00:00") := by
  have h := cancelar_restore_failure "7" ⟨"7", "123", "456", "Lunes", "09:00:00"⟩ (some 500)
    ⟨.ok (some ⟨"7", "123", "456", "Lunes", "09:00:00"⟩), .ok (), .err (some 500)⟩ rfl rfl rfl
  rw [h.1]; rfl

/-- C7 counterexample: a patient-verification failure with upstream status
503 is answered with HTTP 503 (the handler echoes
`error.response?.status`), not with the claimed HTTP 500. -/
theorem agendar_upstream_error_counterexample :
    firstSend (agendar "123" "456" "Lunes" "09:00:00"
        ⟨.err (some 503), .ok (some "d"), .ok [], .ok "", .ok ()⟩) =
      some (503, "Error al verificar el Paciente") ∧ (503 : Nat) ≠ 500 :=
  ⟨rfl, by decide⟩

/-- C7 (amended): a patient or doctor verification failure other than an
upstream 404 is answered with the generic upstream-error message, and its
HTTP status echoes the upstream's status when a response was received
(`error.response?.status || 500`); only a failure with no response
received maps to 500. -/
theorem agendar_upstream_error_amended (dniP dniD dia hora : String) (c : BookCalls)
    (st : Option Nat) (h404 : st ≠ some 404) :
    (c.paciente = .err st →
      agendar dniP dniD dia hora c = [.send (jsStatus st) "Error al verificar el Paciente"]) ∧
    (∀ p, c.paciente = .ok (some p) → c.doctor = .err st →
      agendar dniP dniD dia hora c = [.send (jsStatus st) "Error al verificar el doctor"]) ∧
    (st = none → jsStatus st = 500) := by
  have hne : ¬ jsStatus st = 404 := fun h => h404 ((jsStatus_eq_404_iff st).mp h)
  exact ⟨fun h => by simp [agendar, h, hne],
    fun p hp h => by simp [agendar, hp, h, hne],
    fun h => by simp [h, jsStatus]⟩

/-- C7 (amended) witness: a patient verification failure with no response
received is answered 500 with the upstream-error message. -/
theorem agendar_upstream_error_amended_witness :
    agendar "123" "456" "Lunes" "09:00:00"
        ⟨.err none, .ok (some "d"), .ok [], .ok "", .ok ()⟩ =
      [.send 500 "Error al verificar el Paciente"] ∧ jsStatus none = 500 := by
  have h := agendar_upstream_error_amended "123" "456" "Lunes" "09:00:00"
    ⟨.err none, .ok (some "d"), .ok [], .ok "", .ok ()⟩ none (by decide)
  exact ⟨by simpa [jsStatus] using h.1 rfl, h.2.2 rfl⟩

/-- C1: booking against stores whose availability table holds a row
matching the requested (doctor, dia, hora) — unique, per the data model's
slot-uniqueness invariant — with patient and doctor found, produces the
trace create-appointment, send 201 "Cita agendada con éxito", delete-slot
(the deletion strictly after the response); the final stores hold exactly
one new appointment record carrying (dniPaciente, dniDoctor, dia, hora)
and exactly one availability row fewer, the matching one. -/
theorem bookRun_success (s : SysState) (newId dniP dniD dia hora p d : String)
    (hmem : ∃ r ∈ s.slots, matchB dniD dia hora r = true)
    (huniq : s.slots.countP (matchB dniD dia hora) ≤ 1) :
    (bookRun s newId dniP dniD dia hora (.ok (some p)) (.ok (some d))).1 =
      [.createCita ⟨dniP, dniD, dia, hora⟩,
       .send 201 "Cita agendada con éxito",
       .deleteSlot dniD dia hora] ∧
    firstSend (bookRun s newId dniP dniD dia hora (.ok (some p)) (.ok (some d))).1 =
      some (201, "Cita agendada con éxito") ∧
    (bookRun s newId dniP dniD dia hora (.ok (some p)) (.ok (some d))).2.citas =
      s.citas ++ [⟨newId, dniP, dniD, dia, hora⟩] ∧
    (bookRun s newId dniP dniD dia hora (.ok (some p)) (.ok (some d))).2.slots =
      s.slots.filter (fun r => !(matchB dniD dia hora r)) ∧
    (bookRun s newId dniP dniD dia hora (.ok (some p)) (.ok (some d))).2.slots.length + 1 =
      s.slots.length := by
  obtain ⟨r, hr, hmb⟩ := hmem
  have hcount : s.slots.countP (matchB dniD dia hora) = 1 := by
    have hpos : 0 < s.slots.countP (matchB dniD dia hora) :=
      List.countP_pos_iff.mpr ⟨r, hr, hmb⟩
    omega
  have hmb' := hmb
  simp only [matchB, Bool.and_eq_true, beq_iff_eq] at hmb'
  obtain ⟨⟨h1, h2⟩, h3⟩ := hmb'
  have hAny : (dispSelect s.slots dniD).any (fun dd => dd.dia == dia && dd.hora == hora) = true := by
    refine List.any_eq_true.mpr ⟨r, List.mem_filter.mpr ⟨hr, by simp [h1]⟩, by simp [h2, h3]⟩
  have htrace : agendar dniP dniD dia hora (bookCalls s dniD (.ok (some p)) (.ok (some d))) =
      [.createCita ⟨dniP, dniD, dia, hora⟩,
       .send 201 "Cita agendada con éxito",
       .deleteSlot dniD dia hora] := by
    simp [agendar, bookCalls, hAny]
  have hlen : ((s.slots.filter fun r => !(matchB dniD dia hora r)).length +
      s.slots.countP (matchB dniD dia hora)) = s.slots.length :=
    length_filter_not_add_countP s.slots (matchB dniD dia hora)
  refine ⟨by simp [bookRun, htrace], by simp [bookRun, htrace, firstSend], ?_, ?_, ?_⟩
  · simp [bookRun, htrace, applyEvent]
  · simp [bookRun, htrace, applyEvent]
  · have hslots : (bookRun s newId dniP dniD dia hora (.ok (some p)) (.ok (some d))).2.slots =
        s.slots.filter (fun r => !(matchB dniD dia hora r)) := by
      simp [bookRun, htrace, applyEvent]
    rw [hslots]
    omega

/-- C1 witness: a concrete booking against a store holding exactly the
requested slot: the caller sees the 201, the appointment store gains the
one record, and the slot is gone. -/
theorem bookRun_success_witness :
    firstSend (bookRun ⟨[⟨"Lunes", "09:00:00", "456"⟩], []⟩ "1" "123" "456" "Lunes" "09:00:00"
        (.ok (some "p")) (.ok (some "d"))).1 = some (201, "Cita agendada con éxito") ∧
    (bookRun ⟨[⟨"Lunes", "09:00:00", "456"⟩], []⟩ "1" "123" "456" "Lunes" "09:00:00"
        (.ok (some "p")) (.ok (some "d"))).2.citas =
      [⟨"1", "123", "456", "Lunes", "09:00:00"⟩] ∧
    (bookRun ⟨[⟨"Lunes", "09:00:00", "456"⟩], []⟩ "1" "123" "456" "Lunes" "09:00:00"
        (.ok (some "p")) (.ok (some "d"))).2.slots = [] := by
  have h := bookRun_success ⟨[⟨"Lunes", "09:00:00", "456"⟩], []⟩ "1" "123" "456" "Lunes"
    "09:00:00" "p" "d" ⟨⟨"Lunes", "09:00:00", "456"⟩, by simp, by decide⟩ (by decide)
  refine ⟨h.2.1, ?_, ?_⟩
  · rw [h.2.2.1]; rfl
  · rw [h.2.2.2.1]; decide

/-- C8: for `/:dniPaciente` with a successfully fetched appointment list:
an empty list is answered 404; a nonempty list of N appointments is
answered 200 with exactly the N entries `citas.map (enrich getDoctor)`,
index for index in the original order; an entry whose doctor lookup
succeeds with a present body carries the doctor's nombres, apellidos and
especialidad, and an entry whose doctor lookup throws carries the
error-marker string as its doctor field instead of aborting the list. -/
theorem listar_enriched (dniP : String) (citas : List CitaRec)
    (getDoctor : String → Remote (Option DoctorData)) :
    (citas = [] →
      listar dniP (.ok citas) getDoctor =
        .sendText 404 ("No se encontraron citas para el paciente con DNI " ++ dniP)) ∧
    (citas ≠ [] →
      listar dniP (.ok citas) getDoctor = .json 200 (citas.map (enrich getDoctor))) ∧
    (citas.map (enrich getDoctor)).length = citas.length ∧
    (∀ i : Nat, (citas.map (enrich getDoctor))[i]? = (citas[i]?).map (enrich getDoctor)) ∧
    (∀ cita dd, getDoctor cita.dniDoctor = .ok (some dd) →
      enrich getDoctor cita =
        .enriched cita.dia cita.hora ⟨dd.nombres, dd.apellidos, dd.especialidad⟩) ∧
    (∀ cita st, getDoctor cita.dniDoctor = .err st →
      enrich getDoctor cita = .fallback cita "Error al obtener los datos del doctor") := by
  refine ⟨fun h => ?_, fun h => ?_, by simp, fun i => ?_, fun cita dd h => ?_,
    fun cita st h => ?_⟩
  · subst h; simp [listar]
  · have hl : ¬ citas.length = 0 := fun hl => h (List.length_eq_zero.mp hl)
    simp [listar, hl]
  · simp [List.getElem?_map]
  · simp [enrich, h]
  · simp [enrich, h]

/-- C8 witness: a concrete empty listing (404) and a concrete two-element
listing in which the first doctor lookup succeeds and the second throws. -/
theorem listar_enriched_witness :
    listar "123" (.ok ([] : List CitaRec)) (fun _ => .err none) =
      .sendText 404 "No se encontraron citas para el paciente con DNI 123" ∧
    listar "123" (.ok [⟨"1", "123", "456", "Lunes", "09:00:00"⟩,
        ⟨"2", "123", "777", "Martes", "10:00:00"⟩])
        (fun dni => if dni = "456" then .ok (some ⟨"Luis", "Perez", "Cardiologia"⟩)
          else .err none) =
      .json 200 [.enriched "Lunes" "09:00:00" ⟨"Luis", "Perez", "Cardiologia"⟩,
        .fallback ⟨"2", "123", "777", "Martes", "10:00:00"⟩
          "Error al obtener los datos del doctor"] := by
  constructor
  · have h := (listar_enriched "123" ([] : List CitaRec) (fun _ => .err none)).1 rfl
    rw [h]; rfl
  · have h := (listar_enriched "123" [⟨"1", "123", "456", "Lunes", "09:00:00"⟩,
        ⟨"2", "123", "777", "Martes", "10:00:00"⟩]
        (fun dni => if dni = "456" then .ok (some ⟨"Luis", "Perez", "Cardiologia"⟩)
          else .err none)).2.1 (by decide)
    rw [h]; decide

/-- C9 counterexample: on a store holding the row (Lunes, 09:00:00, 456),
a successful `GET /disponibilidad/456` returns the row with its key list
dia, hora, dni_doctor — `SELECT *` also returns the `dni_doctor` column,
so the element is not of the claimed shape with exactly dia and hora. -/
theorem dispGet_shape_counterexample :
    dispGet [⟨"Lunes", "09:00:00", "456"⟩] "456" true =
      .json 200 [[("dia", "Lunes"), ("hora", "09:00:00"), ("dni_doctor", "456")]] ∧
    [("dia", "Lunes"), ("hora", "09:00:00"), ("dni_doctor", "456")].map Prod.fst ≠
      ["dia", "hora"] :=
  ⟨rfl, by decide⟩

/-- C9 (amended): a successful `GET /disponibilidad/:dni` responds 200
with the JSON array of the rows whose `dni_doctor` equals `dni`, each
element an object with fields dia, hora and dni_doctor carrying the row's
values. -/
theorem dispGet_success_amended (db : List DispRow) (dni : String) :
    dispGet db dni true = .json 200 ((dispSelect db dni).map rowFields) ∧
    ∀ r ∈ dispSelect db dni,
      (rowFields r).map Prod.fst = ["dia", "hora", "dni_doctor"] ∧
      ("dia", r.dia) ∈ rowFields r ∧ ("hora", r.hora) ∈ rowFields r ∧
      r.dni_doctor = dni ∧ r ∈ db := by
  refine ⟨rfl, fun r hr => ?_⟩
  have hm := List.mem_filter.mp hr
  exact ⟨rfl, by simp [rowFields], by simp [rowFields],
    by simpa using hm.2, hm.1⟩

/-- C9 (amended) witness: the concrete store with the single row
(Lunes, 09:00:00, 456). -/
theorem dispGet_success_amended_witness :
    dispGet [⟨"Lunes", "09:00:00", "456"⟩] "456" true =
      .json 200 [[("dia", "Lunes"), ("hora", "09:00:00"), ("dni_doctor", "456")]] ∧
    ("dia", "Lunes") ∈ rowFields ⟨"Lunes", "09:00:00", "456"⟩ := by
  have h := dispGet_success_amended [⟨"Lunes", "09:00:00", "456"⟩] "456"
  refine ⟨by rw [h.1]; decide, ?_⟩
  exact (h.2 ⟨"Lunes", "09:00:00", "456"⟩ (by decide)).2.1

end CloudProject
